import Mathlib

/-!
Verification model of the CymbalFlix Discover data-access layer
(`app/utils/queries.py` and `app/utils/database.py`).

The database state is modelled as lists of rows; each query function of
`queries.py` is translated into a Lean function of type `DB → ... → DB × result`
mirroring the SQL it executes row by row (joins as list products, `GROUP BY`
as per-row aggregation, `ORDER BY` as a total-relation sort, `LIMIT/OFFSET` as
`take/drop`).  Two pieces of the external engine are kept abstract and passed
as parameters: the text-embedding model and the vector-distance operator of
the semantic search query.  SQL `ILIKE` is modelled with full pattern
semantics: `%` matches any sequence, `_` any single character, and backslash
(the default escape character) makes the following character literal; the
`ORDER BY` text collation is modelled as code-point order, and SQL `lower()`
as per-character `Char.toLower`.
-/

/-- A SQL timestamp, reduced to the parts the queries inspect:
`EXTRACT(YEAR FROM rated_at)` reads `year`; `sub` stands for the rest of the
instant so distinct timestamps in the same year can be represented. -/
structure Timestamp where
  year : Int
  sub : Nat
deriving DecidableEq

/-- A row of the `movies` table. `summary_embedding` is the vector column
(NULL allowed). -/
structure Movie where
  movie_id : Nat
  title : String
  year : Option Int
  summary : Option String
  summary_embedding : Option (List ℚ)
deriving DecidableEq

/-- A row of the `genres` table. -/
structure Genre where
  genre_id : Nat
  genre_name : String
deriving DecidableEq

/-- A row of the `ratings` table. -/
structure Rating where
  rating_id : Nat
  user_id : Nat
  movie_id : Nat
  rating : ℚ
  rated_at : Option Timestamp
deriving DecidableEq

/-- A row of the `links` table. -/
structure MovieLink where
  movie_id : Nat
  imdb_id : Option String
  tmdb_id : Option Nat
deriving DecidableEq

/-- The database state.  `movie_genres` is the join table as
(movie_id, genre_id) pairs; `users` holds the user identifiers (no profile
data is modelled, matching the schema use).  `next_rating_id` models the
serial key of `ratings`; `now` models `CURRENT_TIMESTAMP`. -/
structure DB where
  movies : List Movie
  genres : List Genre
  movie_genres : List (Nat × Nat)
  ratings : List Rating
  users : List Nat
  links : List MovieLink
  next_rating_id : Nat
  now : Timestamp
deriving DecidableEq

/-! ### SQL `lower()` and `ILIKE` pattern matching -/

/-- SQL `lower()` on a string, as the list of case-folded characters. -/
def lowerData (s : String) : List Char := s.data.map Char.toLower

/-- One token of a LIKE pattern: `%` (any sequence), `_` (any one character),
or a literal character. -/
inductive LikeTok where
  | star : LikeTok
  | anyone : LikeTok
  | lit : Char → LikeTok
deriving DecidableEq

/-- Tokenize a LIKE pattern.  A backslash escapes the following character
(the Postgres default escape); a trailing lone backslash is kept literal
(Postgres raises an error there, a case the application never produces since
its patterns always end in `%`). -/
def likeLex : List Char → List LikeTok
  | [] => []
  | '%' :: ps => .star :: likeLex ps
  | '_' :: ps => .anyone :: likeLex ps
  | '\\' :: p :: ps => .lit p :: likeLex ps
  | '\\' :: [] => [.lit '\\']
  | p :: ps => .lit p :: likeLex ps

/-- Try `f` on every suffix of the subject: the search a `%` token performs. -/
def starLoop (f : List Char → Bool) : List Char → Bool
  | [] => f []
  | b :: t => f (b :: t) || starLoop f t

/-- Match a tokenized LIKE pattern against a subject string. -/
def likeTokMatch : List LikeTok → List Char → Bool
  | [] => fun s => s.isEmpty
  | .star :: ps => fun s => starLoop (likeTokMatch ps) s
  | .anyone :: ps => fun s =>
    match s with
    | [] => false
    | _ :: t => likeTokMatch ps t
  | .lit c :: ps => fun s =>
    match s with
    | [] => false
    | d :: t => (d == c) && likeTokMatch ps t

/-- SQL `s ILIKE pat`: case-fold both sides, then LIKE-match. -/
def ilikeB (s pat : String) : Bool := likeTokMatch (likeLex (lowerData pat)) (lowerData s)

/-! ### Code-point string order (the collation model for `ORDER BY` on text) -/

/-- Lexicographic "less or equal" on character lists by code point. -/
def strLeB : List Char → List Char → Bool
  | [], _ => true
  | _ :: _, [] => false
  | a :: as, b :: bs => decide (a.toNat < b.toNat) || ((a.toNat == b.toNat) && strLeB as bs)

/-- `ORDER BY` comparison on strings. -/
def strOrder (a b : String) : Prop := strLeB a.data b.data = true

instance : DecidableRel strOrder := fun a b => by unfold strOrder; infer_instance

theorem strLeB_total : ∀ a b, strLeB a b = true ∨ strLeB b a = true := by
  intro a
  induction a with
  | nil => intro b; left; cases b <;> rfl
  | cons x xs ih =>
    intro b
    cases b with
    | nil => right; rfl
    | cons y ys =>
      rcases Nat.lt_trichotomy x.toNat y.toNat with h | h | h
      · left; simp [strLeB, h]
      · rcases ih ys with h2 | h2
        · left; simp [strLeB, h, h2]
        · right; simp [strLeB, h.symm, h2]
      · right; simp [strLeB, h]

theorem strLeB_trans : ∀ {a b c}, strLeB a b = true → strLeB b c = true → strLeB a c = true := by
  intro a
  induction a with
  | nil => intro b c _ _; cases c <;> simp [strLeB]
  | cons x xs ih =>
    intro b c hab hbc
    cases b with
    | nil => simp [strLeB] at hab
    | cons y ys =>
      cases c with
      | nil => simp [strLeB] at hbc
      | cons z zs =>
        simp only [strLeB, Bool.or_eq_true, Bool.and_eq_true, decide_eq_true_eq,
          beq_iff_eq] at hab hbc ⊢
        rcases hab with h1 | ⟨h1, h1r⟩ <;> rcases hbc with h2 | ⟨h2, h2r⟩
        · exact Or.inl (Nat.lt_trans h1 h2)
        · exact Or.inl (h2 ▸ h1)
        · exact Or.inl (h1 ▸ h2)
        · exact Or.inr ⟨h1.trans h2, ih h1r h2r⟩

instance : IsTotal String strOrder := ⟨fun a b => strLeB_total a.data b.data⟩

instance : IsTrans String strOrder := ⟨fun _ _ _ h1 h2 => strLeB_trans h1 h2⟩

/-! ### SQL numeric `ROUND` (half away from zero) and Python `round` (half to even) -/

/-- Round a rational to the nearest integer, halves away from zero: the
behaviour of Postgres `ROUND` on `numeric`. -/
def roundHalfAway (x : ℚ) : ℤ := if 0 ≤ x then ⌊x + 1 / 2⌋ else -⌊-x + 1 / 2⌋

/-- Postgres `ROUND(x, d)` on `numeric` values. -/
def sqlRound (x : ℚ) (d : ℕ) : ℚ := (roundHalfAway (x * 10 ^ d) : ℚ) / 10 ^ d

/-- Round a rational to the nearest integer, halves to even: the behaviour of
Python `round` (ignoring binary floating-point representation error). -/
def roundHalfEven (x : ℚ) : ℤ :=
  if x - ⌊x⌋ < 1 / 2 then ⌊x⌋
  else if 1 / 2 < x - ⌊x⌋ then ⌊x⌋ + 1
  else if ⌊x⌋ % 2 = 0 then ⌊x⌋ else ⌊x⌋ + 1

/-- Python `round(x, d)`. -/
def pyRound (x : ℚ) (d : ℕ) : ℚ := (roundHalfEven (x * 10 ^ d) : ℚ) / 10 ^ d

theorem roundHalfAway_mono {x y : ℚ} (h : x ≤ y) : roundHalfAway x ≤ roundHalfAway y := by
  unfold roundHalfAway
  by_cases hx : 0 ≤ x
  · rw [if_pos hx, if_pos (le_trans hx h)]
    exact Int.floor_le_floor (by linarith)
  · rw [if_neg hx]
    by_cases hy : 0 ≤ y
    · rw [if_pos hy]
      have h1 : (0 : ℤ) ≤ ⌊-x + 1 / 2⌋ := Int.floor_nonneg.mpr (by linarith [not_le.mp hx])
      have h2 : (0 : ℤ) ≤ ⌊y + 1 / 2⌋ := Int.floor_nonneg.mpr (by linarith)
      omega
    · rw [if_neg hy]
      have : ⌊-y + 1 / 2⌋ ≤ ⌊-x + 1 / 2⌋ := Int.floor_le_floor (by linarith)
      omega

theorem sqlRound_mono {x y : ℚ} (d : ℕ) (h : x ≤ y) : sqlRound x d ≤ sqlRound y d := by
  unfold sqlRound
  have hp : (0 : ℚ) < 10 ^ d := by positivity
  have := roundHalfAway_mono (mul_le_mul_of_nonneg_right h (le_of_lt hp))
  exact div_le_div_of_nonneg_right (by exact_mod_cast this) (le_of_lt hp)

/-! ### Facts about LIKE matching -/

theorem starLoop_intro (f : List Char → Bool) (s1 s2 : List Char) (h : f s2 = true) :
    starLoop f (s1 ++ s2) = true := by
  induction s1 with
  | nil =>
    cases s2 with
    | nil => simpa [starLoop] using h
    | cons b t => simpa [starLoop] using Or.inl h
  | cons c s1' ih => simp [starLoop, ih]

theorem starLoop_elim {f : List Char → Bool} {s : List Char} (h : starLoop f s = true) :
    ∃ s1 s2, s = s1 ++ s2 ∧ f s2 = true := by
  induction s with
  | nil => exact ⟨[], [], rfl, by simpa [starLoop] using h⟩
  | cons b t ih =>
    rcases Bool.or_eq_true_iff.mp (by simpa [starLoop] using h) with h1 | h1
    · exact ⟨[], b :: t, rfl, h1⟩
    · obtain ⟨s1, s2, hSplit, hf⟩ := ih h1
      exact ⟨b :: s1, s2, by simp [hSplit], hf⟩

theorem likeLex_pct (ps : List Char) : likeLex ('%' :: ps) = .star :: likeLex ps := rfl

theorem likeLex_usc (ps : List Char) : likeLex ('_' :: ps) = .anyone :: likeLex ps := rfl

theorem likeLex_lit (c : Char) (ps : List Char) (h1 : c ≠ '%') (h2 : c ≠ '_')
    (h3 : c ≠ '\\') : likeLex (c :: ps) = .lit c :: likeLex ps := by
  rw [likeLex.eq_def]
  split <;> simp_all

theorem likeLex_append_of_noBS : ∀ {p1 : List Char}, (∀ c ∈ p1, c ≠ '\\') →
    ∀ p2, likeLex (p1 ++ p2) = likeLex p1 ++ likeLex p2 := by
  intro p1
  induction p1 with
  | nil => intro _ p2; rfl
  | cons c ps ih =>
    intro h p2
    have hc : c ≠ '\\' := h c (by simp)
    have hps : ∀ a ∈ ps, a ≠ '\\' := fun a ha => h a (by simp [ha])
    by_cases h1 : c = '%'
    · subst h1; simp [List.cons_append, likeLex_pct, ih hps]
    · by_cases h2 : c = '_'
      · subst h2; simp [List.cons_append, likeLex_usc, ih hps]
      · rw [List.cons_append, likeLex_lit c (ps ++ p2) h1 h2 hc, likeLex_lit c ps h1 h2 hc,
          ih hps, List.cons_append]

theorem likeLex_of_plain : ∀ {q : List Char},
    (∀ c ∈ q, c ≠ '%' ∧ c ≠ '_' ∧ c ≠ '\\') → likeLex q = q.map .lit := by
  intro q
  induction q with
  | nil => intro _; rfl
  | cons c ps ih =>
    intro h
    obtain ⟨h1, h2, h3⟩ := h c (by simp)
    rw [likeLex_lit c ps h1 h2 h3, List.map_cons, ih (fun a ha => h a (by simp [ha]))]

theorem likeTokMatch_star_end : ∀ s, likeTokMatch [.star] s = true := by
  intro s
  induction s with
  | nil => rfl
  | cons b t ih =>
    show starLoop (likeTokMatch []) (b :: t) = true
    simpa [starLoop] using Or.inr ih

theorem likeTokMatch_self : ∀ {q : List Char}, (∀ c ∈ q, c ≠ '\\') →
    likeTokMatch (likeLex q ++ [.star]) q = true := by
  intro q
  induction q with
  | nil => exact fun _ => rfl
  | cons c t ih =>
    intro h
    have hc : c ≠ '\\' := h c (by simp)
    have ht : ∀ a ∈ t, a ≠ '\\' := fun a ha => h a (by simp [ha])
    by_cases h1 : c = '%'
    · subst h1
      rw [likeLex_pct]
      show starLoop (likeTokMatch (likeLex t ++ [.star])) ('%' :: t) = true
      exact starLoop_intro _ ['%'] t (ih ht)
    · by_cases h2 : c = '_'
      · subst h2
        rw [likeLex_usc]
        show likeTokMatch (likeLex t ++ [.star]) t = true
        exact ih ht
      · rw [likeLex_lit c t h1 h2 hc]
        show ((c == c) && likeTokMatch (likeLex t ++ [.star]) t) = true
        simp [ih ht]

theorem likeTokMatch_lit_elim : ∀ {q : List Char} {ps : List LikeTok} {s : List Char},
    likeTokMatch (q.map .lit ++ ps) s = true → ∃ t, s = q ++ t ∧ likeTokMatch ps t = true := by
  intro q
  induction q with
  | nil => exact fun h => ⟨_, rfl, h⟩
  | cons c q' ih =>
    intro ps s h
    cases s with
    | nil => exact absurd h (by simp [likeTokMatch])
    | cons d t =>
      have h2 : ((d == c) && likeTokMatch (q'.map .lit ++ ps) t) = true := h
      rcases Bool.and_eq_true_iff.mp h2 with ⟨hd, hm⟩
      obtain ⟨t', rfl, hps⟩ := ih hm
      exact ⟨t', by simp [eq_of_beq hd], hps⟩

/-! ### Substring containment (the spec-side notion of "contains") -/

/-- Does `needle` occur at the start of the subject? -/
def segStarts : List Char → List Char → Bool
  | [], _ => true
  | _ :: _, [] => false
  | a :: as, b :: bs => (a == b) && segStarts as bs

/-- Does `needle` occur anywhere inside the subject? -/
def segInside (needle : List Char) : List Char → Bool
  | [] => needle.isEmpty
  | b :: t => segStarts needle (b :: t) || segInside needle t

theorem segStarts_self_append : ∀ (q t : List Char), segStarts q (q ++ t) = true := by
  intro q
  induction q with
  | nil => intro t; rfl
  | cons c q' ih => intro t; simp [segStarts, ih]

theorem segInside_intro : ∀ (s1 q t : List Char), segInside q (s1 ++ (q ++ t)) = true := by
  intro s1
  induction s1 with
  | nil =>
    intro q t
    cases q with
    | nil =>
      cases t with
      | nil => rfl
      | cons b r => rfl
    | cons c q' =>
      rw [List.nil_append, List.cons_append]
      show (segStarts (c :: q') (c :: (q' ++ t)) || segInside (c :: q') (q' ++ t)) = true
      have hself := segStarts_self_append (c :: q') t
      rw [List.cons_append] at hself
      rw [hself, Bool.true_or]
  | cons c s1' ih =>
    intro q t
    rw [List.cons_append]
    show (segStarts q (c :: (s1' ++ (q ++ t))) || segInside q (s1' ++ (q ++ t))) = true
    rw [ih q t, Bool.or_true]

/-! ### Case-folding facts -/

theorem toLower_fix {c d : Char} (hd : Char.toNat d < 97 ∨ 122 < Char.toNat d)
    (h : c.toLower = d) : c = d := by
  have hlow : c.toLower =
      (if c.toNat ≥ 65 ∧ c.toNat ≤ 90 then Char.ofNat (c.toNat + 32) else c) := rfl
  rw [hlow] at h
  by_cases hc : c.toNat ≥ 65 ∧ c.toNat ≤ 90
  · exfalso
    rw [if_pos hc] at h
    have key : ∀ n, n < 91 → 65 ≤ n →
        97 ≤ (Char.ofNat (n + 32)).toNat ∧ (Char.ofNat (n + 32)).toNat ≤ 122 := by decide
    have h2 := congrArg Char.toNat h
    have h3 := key c.toNat (by omega) (by omega)
    omega
  · rw [if_neg hc] at h
    exact h

/-- The query contains no backslash (the LIKE escape character). -/
def bsFree (q : String) : Bool := q.data.all (fun c => c != '\\')

/-- The query contains none of the LIKE metacharacters `%`, `_`, `\`. -/
def likePlain (q : String) : Bool :=
  q.data.all (fun c => c != '%' && c != '_' && c != '\\')

theorem bsFree_lower {q : String} (h : bsFree q = true) : ∀ c ∈ lowerData q, c ≠ '\\' := by
  intro c hc hEq
  rw [lowerData, List.mem_map] at hc
  obtain ⟨c0, hc0, rfl⟩ := hc
  have hc0ne : c0 ≠ '\\' := by simpa using (List.all_eq_true.mp h) c0 hc0
  exact hc0ne (@toLower_fix c0 '\\' (Or.inl (by decide)) hEq)

theorem likePlain_lower {q : String} (h : likePlain q = true) :
    ∀ c ∈ lowerData q, c ≠ '%' ∧ c ≠ '_' ∧ c ≠ '\\' := by
  intro c hc
  rw [lowerData, List.mem_map] at hc
  obtain ⟨c0, hc0, rfl⟩ := hc
  have h0 := (List.all_eq_true.mp h) c0 hc0
  simp only [Bool.and_eq_true, bne_iff_ne, ne_eq] at h0
  refine ⟨fun hEq => h0.1.1 (@toLower_fix c0 '%' (Or.inl (by decide)) hEq),
    fun hEq => h0.1.2 (@toLower_fix c0 '_' (Or.inl (by decide)) hEq),
    fun hEq => h0.2 (@toLower_fix c0 '\\' (Or.inl (by decide)) hEq)⟩

/-! ### The keyword-search pattern `f"%{query}%"` -/

/-- The pattern string `search_movies_keyword` binds to `:pattern`. -/
def kwPattern (query : String) : String := "%" ++ query ++ "%"

theorem lowerData_kwPattern (q : String) :
    lowerData (kwPattern q) = '%' :: (lowerData q ++ ['%']) := by
  simp [kwPattern, lowerData, String.data_append]

theorem ilike_of_title_eq {q : String} (hq : bsFree q = true) :
    ilikeB q (kwPattern q) = true := by
  unfold ilikeB
  rw [lowerData_kwPattern, likeLex_pct, likeLex_append_of_noBS (bsFree_lower hq) ['%']]
  show starLoop (likeTokMatch (likeLex (lowerData q) ++ likeLex ['%'])) (lowerData q) = true
  have hstar : likeLex ['%'] = [.star] := rfl
  rw [hstar]
  exact starLoop_intro _ [] (lowerData q) (likeTokMatch_self (bsFree_lower hq))

theorem ilike_plain_contains {q s : String} (hq : likePlain q = true)
    (h : ilikeB s (kwPattern q) = true) : segInside (lowerData q) (lowerData s) = true := by
  unfold ilikeB at h
  rw [lowerData_kwPattern, likeLex_pct,
    likeLex_append_of_noBS (fun c hc => ((likePlain_lower hq) c hc).2.2) ['%'],
    likeLex_of_plain (likePlain_lower hq)] at h
  have h2 : starLoop (likeTokMatch ((lowerData q).map .lit ++ [.star])) (lowerData s) = true := h
  obtain ⟨s1, s2, hsplit, hf⟩ := starLoop_elim h2
  obtain ⟨t, rfl, _⟩ := likeTokMatch_lit_elim hf
  rw [hsplit]
  exact segInside_intro s1 (lowerData q) t

/-! ### Shared row helpers (joins and aggregates used by several queries) -/

/-- The ratings rows of one movie (`LEFT JOIN ratings r ON m.movie_id = r.movie_id`). -/
def ratingsOf (db : DB) (mid : Nat) : List Rating :=
  db.ratings.filter (fun r => r.movie_id == mid)

/-- The genre ids a movie is linked to in `movie_genres`. -/
def linkedGenreIds (db : DB) (mid : Nat) : List Nat :=
  (db.movie_genres.filter (fun p => p.1 == mid)).map (fun p => p.2)

/-- The names carried by `genres` rows with a given id. -/
def genreNamesOf (db : DB) (gid : Nat) : List String :=
  (db.genres.filter (fun g => g.genre_id == gid)).map (fun g => g.genre_name)

/-- `ARRAY_AGG(DISTINCT g.genre_name ORDER BY g.genre_name)` over a bag of names
(with the Python shaping that turns an all-NULL aggregate into `[]`). -/
def aggGenres (names : List String) : List String :=
  List.insertionSort strOrder names.dedup

/-- All genre names of a movie, through the `movie_genres`/`genres` joins. -/
def movieGenreNames (db : DB) (mid : Nat) : List String :=
  (linkedGenreIds db mid).flatMap (genreNamesOf db)

/-- The `genres` array returned for a movie when no genre filter restricts the join. -/
def allGenresAgg (db : DB) (mid : Nat) : List String := aggGenres (movieGenreNames db mid)

/-- SQL `AVG` with `COALESCE(..., 0)`: the empty bag averages to 0. -/
def avgRat (l : List ℚ) : ℚ := if l.length = 0 then 0 else l.sum / l.length

/-- `COALESCE(AVG(r.rating), 0)` for one movie. -/
def movieAvgRating (db : DB) (mid : Nat) : ℚ :=
  avgRat ((ratingsOf db mid).map (fun r => r.rating))

/-! ### `search_movies_keyword` (queries.py lines 135-191) -/

/-- The WHERE clause: `m.title ILIKE :pattern OR m.summary ILIKE :pattern`
(a NULL summary matches nothing). -/
def kwWhere (query : String) (m : Movie) : Bool :=
  ilikeB m.title (kwPattern query) ||
    (match m.summary with
     | some s => ilikeB s (kwPattern query)
     | none => false)

/-- The first ORDER BY key: `CASE WHEN m.title ILIKE :pattern THEN 0 ELSE 1 END`. -/
def kwCaseKey (query : String) (m : Movie) : Nat :=
  if ilikeB m.title (kwPattern query) = true then 0 else 1

/-- `ORDER BY` case-key, then title. -/
def kwOrder (query : String) (a b : Movie) : Prop :=
  kwCaseKey query a < kwCaseKey query b ∨
    (kwCaseKey query a = kwCaseKey query b ∧ strOrder a.title b.title)

instance (query : String) : DecidableRel (kwOrder query) :=
  fun a b => by unfold kwOrder; infer_instance

instance (query : String) : IsTotal Movie (kwOrder query) := by
  refine ⟨fun a b => ?_⟩
  rcases Nat.lt_trichotomy (kwCaseKey query a) (kwCaseKey query b) with h | h | h
  · exact Or.inl (Or.inl h)
  · rcases strLeB_total a.title.data b.title.data with h2 | h2
    · exact Or.inl (Or.inr ⟨h, h2⟩)
    · exact Or.inr (Or.inr ⟨h.symm, h2⟩)
  · exact Or.inr (Or.inl h)

instance (query : String) : IsTrans Movie (kwOrder query) := by
  refine ⟨fun a b c hab hbc => ?_⟩
  rcases hab with h1 | ⟨h1, h1s⟩ <;> rcases hbc with h2 | ⟨h2, h2s⟩
  · exact Or.inl (Nat.lt_trans h1 h2)
  · exact Or.inl (h2 ▸ h1)
  · exact Or.inl (h1 ▸ h2)
  · exact Or.inr ⟨h1.trans h2, strLeB_trans h1s h2s⟩

/-- A row of the list returned by `search_movies_keyword`. -/
structure KwMovie where
  movie_id : Nat
  title : String
  year : Option Int
  summary : Option String
  genres : List String
deriving DecidableEq

/-- `search_movies_keyword(query, limit)`: filter on the two ILIKE predicates,
order by the CASE key then title, truncate to `limit`, shape rows. -/
def search_movies_keyword (db : DB) (query : String) (limit : Nat) : DB × List KwMovie :=
  let rows := List.insertionSort (kwOrder query) (db.movies.filter (kwWhere query))
  (db, (rows.take limit).map (fun m =>
    ⟨m.movie_id, m.title, m.year, m.summary, allGenresAgg db m.movie_id⟩))

/-! ### Generic ORDER BY key relations -/

/-- `ORDER BY key ASC`. -/
def keyAsc {α β : Type} [LE β] (key : α → β) (a b : α) : Prop := key a ≤ key b

/-- `ORDER BY key DESC`. -/
def keyDesc {α β : Type} [LE β] (key : α → β) (a b : α) : Prop := key b ≤ key a

instance {α β : Type} [LinearOrder β] (key : α → β) : DecidableRel (keyAsc key) :=
  fun a b => by unfold keyAsc; infer_instance

instance {α β : Type} [LinearOrder β] (key : α → β) : DecidableRel (keyDesc key) :=
  fun a b => by unfold keyDesc; infer_instance

instance {α β : Type} [LinearOrder β] (key : α → β) : IsTotal α (keyAsc key) :=
  ⟨fun a b => le_total (key a) (key b)⟩

instance {α β : Type} [LinearOrder β] (key : α → β) : IsTotal α (keyDesc key) :=
  ⟨fun a b => le_total (key b) (key a)⟩

instance {α β : Type} [LinearOrder β] (key : α → β) : IsTrans α (keyAsc key) :=
  ⟨fun _ _ _ h1 h2 => le_trans h1 h2⟩

instance {α β : Type} [LinearOrder β] (key : α → β) : IsTrans α (keyDesc key) :=
  ⟨fun _ _ _ h1 h2 => le_trans h2 h1⟩

/-! ### `get_stats` (queries.py lines 27-57) -/

/-- The four counts of the home page. -/
structure Stats where
  movie_count : Nat
  rating_count : Nat
  user_count : Nat
  genre_count : Nat
deriving DecidableEq

/-- `get_stats()`: four `SELECT COUNT(*)` queries. -/
def get_stats (db : DB) : DB × Stats :=
  (db, ⟨db.movies.length, db.ratings.length, db.users.length, db.genres.length⟩)

/-! ### `search_movies_semantic` (queries.py lines 64-128) -/

/-- A row of the list returned by `search_movies_semantic`. -/
structure SemMovie where
  movie_id : Nat
  title : String
  year : Option Int
  summary : Option String
  similarity : ℚ
  genres : List String
deriving DecidableEq

/-- The cosine distance `m.summary_embedding <=> q.embedding` of one movie,
with the distance operator kept abstract. -/
def semKey (cosDist : List ℚ → List ℚ → ℚ) (qe : List ℚ) (m : Movie) : ℚ :=
  cosDist (m.summary_embedding.getD []) qe

/-- `search_movies_semantic(query, limit)`.  `emb` is the external
`embedding('gemini-embedding-001', :query)` model and `cosDist` the `<=>`
operator; both are parameters of the model.  Movies with a NULL embedding are
excluded, the rest are ordered by ascending distance, truncated to `limit`,
and shaped with `similarity = ROUND(1 - distance, 3)` (the Python falsy check
maps a 0 similarity to the number 0). -/
def search_movies_semantic (emb : String → List ℚ) (cosDist : List ℚ → List ℚ → ℚ)
    (db : DB) (query : String) (limit : Nat) : DB × List SemMovie :=
  let qe := emb query
  let rows := List.insertionSort (keyAsc (semKey cosDist qe))
    (db.movies.filter (fun m => m.summary_embedding.isSome))
  (db, (rows.take limit).map (fun m =>
    ⟨m.movie_id, m.title, m.year, m.summary,
     (let s := sqlRound (1 - semKey cosDist qe m) 3; if s = 0 then 0 else s),
     allGenresAgg db m.movie_id⟩))

/-! ### `get_genres` (queries.py lines 198-213) -/

/-- `ORDER BY genre_name` on `genres` rows. -/
def genreNameOrder (a b : Genre) : Prop := strOrder a.genre_name b.genre_name

instance : DecidableRel genreNameOrder := fun a b => by unfold genreNameOrder; infer_instance

instance : IsTotal Genre genreNameOrder :=
  ⟨fun a b => strLeB_total a.genre_name.data b.genre_name.data⟩

instance : IsTrans Genre genreNameOrder := ⟨fun _ _ _ h1 h2 => strLeB_trans h1 h2⟩

/-- `get_genres()`: all genres ordered by name. -/
def get_genres (db : DB) : DB × List Genre :=
  (db, List.insertionSort genreNameOrder db.genres)

/-! ### `browse_movies` (queries.py lines 216-341) -/

/-- Python truthiness of an optional integer argument (`if genre_id:`...). -/
def natFilterActive : Option Nat → Bool
  | none => false
  | some n => n != 0

/-- Python truthiness of an optional integer argument (`if year_min:`...). -/
def intFilterActive : Option Int → Bool
  | none => false
  | some n => n != 0

/-- Python truthiness of the optional `rating_min` float. -/
def ratFilterActive : Option ℚ → Bool
  | none => false
  | some x => x != 0

/-- Does `movie_genres` link this movie to this genre? -/
def hasGenreLink (db : DB) (mid gid : Nat) : Bool :=
  db.movie_genres.any (fun p => p.1 == mid && p.2 == gid)

/-- The dynamically built WHERE clause of `browse_movies` (genre and year
predicates only; a clause is appended only when its argument is truthy).
Under the `LEFT JOIN movie_genres`, the genre predicate keeps exactly the
movies linked to that genre; a year predicate on a NULL year is not satisfied. -/
def browseWhere (db : DB) (genre_id : Option Nat) (year_min year_max : Option Int)
    (m : Movie) : Bool :=
  (if natFilterActive genre_id then hasGenreLink db m.movie_id (genre_id.getD 0) else true)
  && (if intFilterActive year_min then
        (match m.year with
         | some y => decide (year_min.getD 0 ≤ y)
         | none => false)
      else true)
  && (if intFilterActive year_max then
        (match m.year with
         | some y => decide (y ≤ year_max.getD 0)
         | none => false)
      else true)

/-- The genre links of a movie that survive the WHERE clause. -/
def filteredLinkIds (db : DB) (genre_id : Option Nat) (mid : Nat) : List Nat :=
  if natFilterActive genre_id
  then (linkedGenreIds db mid).filter (fun g => g == genre_id.getD 0)
  else linkedGenreIds db mid

/-- `COUNT(r.rating_id)` in the rating-filter CTE: the `LEFT JOIN movie_genres`
multiplies each rating row by the number of surviving link rows (at least one
row survives a LEFT JOIN when the filter is off). -/
def cteRatingCount (db : DB) (genre_id : Option Nat) (mid : Nat) : Nat :=
  (if natFilterActive genre_id then (filteredLinkIds db genre_id mid).length
   else max 1 (linkedGenreIds db mid).length) * (ratingsOf db mid).length

/-- How many `genres` rows carry a given id (the `LEFT JOIN genres`). -/
def genreRowCount (db : DB) (gid : Nat) : Nat :=
  (db.genres.filter (fun g => g.genre_id == gid)).length

/-- `COUNT(r.rating_id)` in the plain branch, whose FROM also left-joins the
`genres` table, further multiplying the rows. -/
def mainRatingCount (db : DB) (genre_id : Option Nat) (mid : Nat) : Nat :=
  (if natFilterActive genre_id
   then ((filteredLinkIds db genre_id mid).map (fun g => max 1 (genreRowCount db g))).sum
   else max 1 (((linkedGenreIds db mid).map (fun g => max 1 (genreRowCount db g))).sum))
  * (ratingsOf db mid).length

/-- The `genres` array in the plain branch: the aggregate ranges only over the
join rows that survived the WHERE clause, so an active genre filter restricts
it to that genre's names (in the rating branch the second stage re-joins
without the filter and yields all names). -/
def filteredGenresAgg (db : DB) (genre_id : Option Nat) (mid : Nat) : List String :=
  aggGenres ((filteredLinkIds db genre_id mid).flatMap (genreNamesOf db))

/-- An unshaped result row of `browse_movies`: the movie with its exact
average, its `COUNT(r.rating_id)` and its genres array. -/
structure BRow where
  movie : Movie
  avg : ℚ
  cnt : Nat
  genres : List String
deriving DecidableEq

/-- `ORDER BY avg_rating DESC, rating_count DESC`. -/
def browseOrder (a b : BRow) : Prop := b.avg < a.avg ∨ (a.avg = b.avg ∧ b.cnt ≤ a.cnt)

instance : DecidableRel browseOrder := fun a b => by unfold browseOrder; infer_instance

instance : IsTotal BRow browseOrder := by
  refine ⟨fun a b => ?_⟩
  rcases lt_trichotomy a.avg b.avg with h | h | h
  · exact Or.inr (Or.inl h)
  · rcases Nat.le_total b.cnt a.cnt with h2 | h2
    · exact Or.inl (Or.inr ⟨h, h2⟩)
    · exact Or.inr (Or.inr ⟨h.symm, h2⟩)
  · exact Or.inl (Or.inl h)

instance : IsTrans BRow browseOrder := by
  refine ⟨fun a b c hab hbc => ?_⟩
  rcases hab with h1 | ⟨h1, h1c⟩ <;> rcases hbc with h2 | ⟨h2, h2c⟩
  · exact Or.inl (lt_trans h2 h1)
  · exact Or.inl (h2 ▸ h1)
  · exact Or.inl (by rw [h1]; exact h2)
  · exact Or.inr ⟨h1.trans h2, le_trans h2c h1c⟩

/-- The rating-filter branch (the `movie_ratings` CTE plus its HAVING clause,
re-joined with genre names): movies passing the WHERE clause whose coalesced
average meets the floor. -/
def browseRowsRating (db : DB) (genre_id : Option Nat) (year_min year_max : Option Int)
    (rmin : ℚ) : List BRow :=
  ((db.movies.filter (browseWhere db genre_id year_min year_max)).filter
    (fun m => decide (rmin ≤ movieAvgRating db m.movie_id))).map
    (fun m => ⟨m, movieAvgRating db m.movie_id, cteRatingCount db genre_id m.movie_id,
      allGenresAgg db m.movie_id⟩)

/-- The branch without a rating filter. -/
def browseRowsPlain (db : DB) (genre_id : Option Nat)
    (year_min year_max : Option Int) : List BRow :=
  (db.movies.filter (browseWhere db genre_id year_min year_max)).map
    (fun m => ⟨m, movieAvgRating db m.movie_id, mainRatingCount db genre_id m.movie_id,
      filteredGenresAgg db genre_id m.movie_id⟩)

/-- The second, count query: `SELECT COUNT(DISTINCT m.movie_id) ... WHERE`
with the same genre and year predicates and no rating predicate. -/
def browseCountQuery (db : DB) (genre_id : Option Nat)
    (year_min year_max : Option Int) : Nat :=
  (((db.movies.filter (browseWhere db genre_id year_min year_max)).map
     (fun m => m.movie_id)).dedup).length

/-- A shaped movie row of the browse result. -/
structure BrowseMovie where
  movie_id : Nat
  title : String
  year : Option Int
  summary : Option String
  avg_rating : ℚ
  rating_count : Nat
  genres : List String
deriving DecidableEq

/-- The dict returned by `browse_movies`. -/
structure BrowseResult where
  movies : List BrowseMovie
  total_count : Nat
deriving DecidableEq

/-- Python shaping of one row (`round(float(row.avg_rating), 2) if row.avg_rating else 0`). -/
def shapeBrowseRow (r : BRow) : BrowseMovie :=
  ⟨r.movie.movie_id, r.movie.title, r.movie.year, r.movie.summary,
   (if r.avg = 0 then 0 else pyRound r.avg 2), r.cnt, r.genres⟩

/-- `browse_movies(genre_id, year_min, year_max, rating_min, limit, offset)`. -/
def browse_movies (db : DB) (genre_id : Option Nat) (year_min year_max : Option Int)
    (rating_min : Option ℚ) (limit offset : Nat) : DB × BrowseResult :=
  let rows := if ratFilterActive rating_min
    then browseRowsRating db genre_id year_min year_max (rating_min.getD 0)
    else browseRowsPlain db genre_id year_min year_max
  let sorted := List.insertionSort browseOrder rows
  (db, ⟨((sorted.drop offset).take limit).map shapeBrowseRow,
    browseCountQuery db genre_id year_min year_max⟩)

/-! ### `get_movie_details` (queries.py lines 348-399) -/

/-- The dict returned by `get_movie_details`. -/
structure MovieDetails where
  movie_id : Nat
  title : String
  year : Option Int
  summary : Option String
  avg_rating : ℚ
  rating_count : Nat
  genres : List String
  imdb_id : Option String
  tmdb_id : Option Nat
  imdb_url : Option String
  tmdb_url : Option String
deriving DecidableEq

/-- `get_movie_details(movie_id)`: None when no movie row matches; otherwise
the first matching row is shaped, with the URLs built only from truthy
external ids (the Python falsy check drops empty or zero ids). -/
def get_movie_details (db : DB) (mid : Nat) : DB × Option MovieDetails :=
  match (db.movies.filter (fun m => m.movie_id == mid)).head? with
  | none => (db, none)
  | some m =>
    let lnk := (db.links.filter (fun l => l.movie_id == mid)).head?
    let avg := movieAvgRating db mid
    let imdb := lnk.bind (fun l => l.imdb_id)
    let tmdb := lnk.bind (fun l => l.tmdb_id)
    (db, some
      ⟨m.movie_id, m.title, m.year, m.summary,
       (if avg = 0 then 0 else pyRound avg 2),
       mainRatingCount db none mid,
       allGenresAgg db mid,
       imdb, tmdb,
       (match imdb with
        | some i => if i = "" then none else some ("https://www.imdb.com/title/" ++ i ++ "/")
        | none => none),
       (match tmdb with
        | some t => if t = 0 then none else some ("https://www.themoviedb.org/movie/" ++ toString t)
        | none => none)⟩)

/-! ### `add_rating` (queries.py lines 406-471) -/

/-- The dict returned by `add_rating`. -/
structure RatingResult where
  success : Bool
  action : String
  rating_id : Nat
  user_id : Nat
  movie_id : Nat
  rating : ℚ
  rated_at : Option Timestamp
deriving DecidableEq

/-- The composite-key predicate `user_id = :user_id AND movie_id = :movie_id`. -/
def ratingKeyMatch (u m : Nat) (r : Rating) : Bool := r.user_id == u && r.movie_id == m

/-- `add_rating(user_id, movie_id, rating)`: check then act.  If a row with
the composite key exists, UPDATE rewrites every matching row in place
(RETURNING surfaces the first); otherwise INSERT appends a fresh row under the
next serial id. -/
def add_rating (db : DB) (user_id movie_id : Nat) (rating : ℚ) : DB × RatingResult :=
  match (db.ratings.filter (ratingKeyMatch user_id movie_id)).head? with
  | some r0 =>
    ({ db with ratings := db.ratings.map (fun r =>
        if ratingKeyMatch user_id movie_id r
        then { r with rating := rating, rated_at := some db.now } else r) },
     ⟨true, "updated", r0.rating_id, user_id, movie_id, rating, some db.now⟩)
  | none =>
    ({ db with
        ratings := db.ratings ++ [⟨db.next_rating_id, user_id, movie_id, rating, some db.now⟩],
        next_rating_id := db.next_rating_id + 1 },
     ⟨true, "created", db.next_rating_id, user_id, movie_id, rating, some db.now⟩)

/-! ### `get_analytics_data` (queries.py lines 478-593) -/

/-- A row of the top-rated-movies aggregation. -/
structure TopMovie where
  title : String
  year : Option Int
  avg_rating : ℚ
  rating_count : Nat
deriving DecidableEq

/-- A row of the genre-distribution aggregation. -/
structure GenreCount where
  genre : String
  count : Nat
deriving DecidableEq

/-- A row of the ratings-by-year aggregation. -/
structure YearRatingStat where
  year : Int
  count : Nat
  avg_rating : ℚ
deriving DecidableEq

/-- A row of the average-rating-by-genre aggregation. -/
structure GenreRatingStat where
  genre : String
  avg_rating : ℚ
  rating_count : Nat
deriving DecidableEq

/-- A row of the movies-by-decade aggregation. -/
structure DecadeCount where
  decade : String
  count : Nat
deriving DecidableEq

/-- The five result sets of the analytics page. -/
structure AnalyticsData where
  top_movies : List TopMovie
  genre_distribution : List GenreCount
  ratings_by_year : List YearRatingStat
  avg_rating_by_genre : List GenreRatingStat
  movies_by_decade : List DecadeCount
deriving DecidableEq

/-- Top rated movies: inner join with ratings, grouped per movie,
`HAVING COUNT(r.rating_id) >= 50`, ordered by the exact average descending,
first ten rows, then shaped with `ROUND(AVG(r.rating), 2)`. -/
def topMoviesQuery (db : DB) : List TopMovie :=
  let rows := db.movies.filterMap (fun m =>
    let rs := ratingsOf db m.movie_id
    if rs.length = 0 then none
    else some (m, avgRat (rs.map (fun r => r.rating)), rs.length))
  let qualified := rows.filter (fun r => decide (50 ≤ r.2.2))
  let sorted := List.insertionSort (keyDesc (fun r : Movie × ℚ × Nat => r.2.1)) qualified
  (sorted.take 10).map (fun r => ⟨r.1.title, r.1.year, sqlRound r.2.1 2, r.2.2⟩)

/-- Genre distribution: genres inner-joined with `movie_genres`, counting
distinct movie ids, ordered by count descending. -/
def genreDistributionQuery (db : DB) : List GenreCount :=
  let rows := db.genres.filterMap (fun g =>
    let ms := (db.movie_genres.filter (fun p => p.2 == g.genre_id)).map (fun p => p.1)
    if ms.length = 0 then none
    else some (⟨g.genre_name, ms.dedup.length⟩ : GenreCount))
  List.insertionSort (keyDesc (fun r : GenreCount => r.count)) rows

/-- Ratings by year of `rated_at` (NULL timestamps excluded), ordered by year. -/
def ratingsByYearQuery (db : DB) : List YearRatingStat :=
  let stamped := db.ratings.filter (fun r => r.rated_at.isSome)
  let years := ((stamped.filterMap (fun r => r.rated_at)).map (fun t => t.year)).dedup
  (List.insertionSort (keyAsc (fun y : Int => y)) years).map (fun y =>
    let rs := stamped.filter (fun r =>
      match r.rated_at with
      | some t => decide (t.year = y)
      | none => false)
    ⟨y, rs.length, sqlRound (avgRat (rs.map (fun r => r.rating))) 2⟩)

/-- Average rating per genre through the `movie_genres`/`ratings` inner joins,
ordered by the rounded average descending (the ORDER BY names the output
column, which carries the rounded value). -/
def avgRatingByGenreQuery (db : DB) : List GenreRatingStat :=
  let rows := db.genres.filterMap (fun g =>
    let ls := (db.movie_genres.filter (fun p => p.2 == g.genre_id)).map (fun p => p.1)
    let rs := ls.flatMap (fun mid => ratingsOf db mid)
    if rs.length = 0 then none
    else some (⟨g.genre_name, sqlRound (avgRat (rs.map (fun r => r.rating))) 2,
      rs.length⟩ : GenreRatingStat))
  List.insertionSort (keyDesc (fun r : GenreRatingStat => r.avg_rating)) rows

/-- Movies per decade (`(year / 10) * 10` in SQL integer division, which
truncates toward zero), NULL years excluded, ordered by decade. -/
def moviesByDecadeQuery (db : DB) : List DecadeCount :=
  let yrs := db.movies.filterMap (fun m => m.year)
  let decades := (yrs.map (fun y => Int.tdiv y 10 * 10)).dedup
  (List.insertionSort (keyAsc (fun d : Int => d)) decades).map (fun d =>
    ⟨toString d ++ "s", (yrs.filter (fun y => Int.tdiv y 10 * 10 == d)).length⟩)

/-- `get_analytics_data()`: the five aggregations, each executed once. -/
def get_analytics_data (db : DB) : DB × AnalyticsData :=
  (db, ⟨topMoviesQuery db, genreDistributionQuery db, ratingsByYearQuery db,
    avgRatingByGenreQuery db, moviesByDecadeQuery db⟩)

/-! ### `is_configured` (database.py lines 219-227) and the Browse page guard -/

/-- The two required environment variables (the others have non-empty
defaults and cannot make `is_configured` fail). -/
structure AppConfig where
  project_id : String
  db_user : String
deriving DecidableEq

/-- `is_configured()`: `all([PROJECT_ID, DB_USER])` — Python truthiness of
strings is non-emptiness. -/
def is_configured (cfg : AppConfig) : Bool :=
  (cfg.project_id != "") && (cfg.db_user != "")

/-- One run of the Browse page script.  `sidebar_genres` is the result of the
`get_genres()` call the sidebar makes at 2_Browse.py line 46; `body` is the
result of the guarded body at lines 117-131, `none` when the
missing-configuration check short-circuits it. -/
structure BrowsePageRun where
  sidebar_genres : List Genre
  body : Option BrowseResult
deriving DecidableEq

/-- The Browse page (2_Browse.py), in script order: the sidebar executes the
`get_genres()` query at line 46 unconditionally — before the `is_configured`
check at line 117 is ever evaluated — and only the page body at lines 117-131
is behind the guard.  (Home.py likewise calls `get_stats()` outside its
guard.) -/
def browse_page (cfg : AppConfig) (db : DB) (genre_id : Option Nat)
    (year_min year_max : Option Int) (rating_min : Option ℚ)
    (limit offset : Nat) : BrowsePageRun :=
  { sidebar_genres := (get_genres db).2,
    body := if is_configured cfg
      then some (browse_movies db genre_id year_min year_max rating_min limit offset).2
      else none }

/-! ### Concrete databases used by witnesses and counterexamples -/

/-- A fixed timestamp for concrete databases. -/
def tsZero : Timestamp := ⟨2020, 0⟩

/-- No ratings at all. -/
def dbNoRating : DB := ⟨[], [], [], [], [], [], 7, tsZero⟩

/-- One rating: user 1 gave movie 2 a 3, stored under rating_id 10. -/
def dbOneRating : DB := ⟨[], [], [], [⟨10, 1, 2, 3, none⟩], [], [], 11, tsZero⟩

/-- One movie whose single rating (a 3) is below the floor used in the C1
excess example. -/
def dbC1 : DB := ⟨[⟨1, "M", some 2000, none, none⟩], [], [], [⟨1, 1, 1, 3, none⟩], [], [], 2, tsZero⟩

/-- Two movies, one genre, one link: movie 1 ("A", 1995) is a Drama,
movie 2 ("B", 1980) has no genre. -/
def dbBrowse : DB :=
  ⟨[⟨1, "A", some 1995, none, none⟩, ⟨2, "B", some 1980, none, none⟩],
   [⟨5, "Drama"⟩], [(1, 5)], [], [], [], 1, tsZero⟩

/-! ### C7 -/

/-- C7: `browse_movies` treats every falsy filter argument as unset: passing
`genre_id=0`, `year_min=0`, `year_max=0` or `rating_min=0.0` omits the
corresponding predicate exactly as passing None does, because the presence
checks use Python truthiness. -/
theorem browse_movies_falsy_filters_unset (db : DB) (gid : Option Nat)
    (ymin ymax : Option Int) (rmin : Option ℚ) (limit offset : Nat) :
    browse_movies db (some 0) ymin ymax rmin limit offset
        = browse_movies db none ymin ymax rmin limit offset
    ∧ browse_movies db gid (some 0) ymax rmin limit offset
        = browse_movies db gid none ymax rmin limit offset
    ∧ browse_movies db gid ymin (some 0) rmin limit offset
        = browse_movies db gid ymin none rmin limit offset
    ∧ browse_movies db gid ymin ymax (some 0) limit offset
        = browse_movies db gid ymin ymax none limit offset :=
  ⟨rfl, rfl, rfl, rfl⟩

/-! ### C1 -/

/-- C1: the `total_count` of every `browse_movies` call is the result of the
second count query, which repeats the genre and year predicates and never the
rating predicate; consequently with an active `rating_min` it can exceed the
number of movies satisfying all active filters, as the concrete database
`dbC1` shows (count 1, but no movie reaches the floor of 4). -/
theorem browse_total_count_ignores_rating_filter :
    (∀ (db : DB) (gid : Option Nat) (ymin ymax : Option Int) (rmin : Option ℚ)
       (limit offset : Nat),
       (browse_movies db gid ymin ymax rmin limit offset).2.total_count
         = browseCountQuery db gid ymin ymax)
    ∧ ratFilterActive (some 4) = true
    ∧ (browse_movies dbC1 none none none (some 4) 10 0).2.total_count = 1
    ∧ (browse_movies dbC1 none none none (some 4) 10 0).2.movies = [] := by
  refine ⟨fun db gid ymin ymax rmin limit offset => rfl, by decide, by decide, ?_⟩
  simp [browse_movies, browseRowsRating, browseWhere, movieAvgRating, ratingsOf, avgRat, dbC1,
    ratFilterActive, List.filter, List.insertionSort]

/-! ### C2 -/

/-- C2: `add_rating` on a (user, movie) pair with no stored rating returns
action "created"; on a pair with a stored rating it returns action "updated",
the returned rating_id is the stored row's id, and the update is in place:
the list of rating ids is unchanged. -/
theorem add_rating_upsert (db : DB) (u m : Nat) (v : ℚ) :
    ((db.ratings.filter (ratingKeyMatch u m)).head? = none →
       (add_rating db u m v).2.action = "created")
    ∧ (∀ r0, (db.ratings.filter (ratingKeyMatch u m)).head? = some r0 →
       (add_rating db u m v).2.action = "updated"
       ∧ (add_rating db u m v).2.rating_id = r0.rating_id
       ∧ (add_rating db u m v).1.ratings.map (fun r => r.rating_id)
           = db.ratings.map (fun r => r.rating_id)) := by
  constructor
  · intro h
    unfold add_rating
    rw [h]
  · intro r0 h
    unfold add_rating
    rw [h]
    refine ⟨rfl, rfl, ?_⟩
    show (db.ratings.map (fun r =>
      if ratingKeyMatch u m r
      then { r with rating := v, rated_at := some db.now } else r)).map (fun r => r.rating_id)
        = db.ratings.map (fun r => r.rating_id)
    rw [List.map_map]
    refine List.map_congr_left (fun r _ => ?_)
    by_cases hp : ratingKeyMatch u m r <;> simp [hp]

/-- Witness for C2 at two concrete databases: an empty ratings table yields
"created"; a table holding rating_id 10 for the pair yields "updated" with the
same id and an unchanged id list. -/
theorem add_rating_upsert_witness :
    ((dbNoRating.ratings.filter (ratingKeyMatch 1 2)).head? = none
      ∧ (add_rating dbNoRating 1 2 3).2.action = "created")
    ∧ ((dbOneRating.ratings.filter (ratingKeyMatch 1 2)).head? = some ⟨10, 1, 2, 3, none⟩
      ∧ (add_rating dbOneRating 1 2 4).2.action = "updated"
      ∧ (add_rating dbOneRating 1 2 4).2.rating_id = 10
      ∧ (add_rating dbOneRating 1 2 4).1.ratings.map (fun r => r.rating_id)
          = dbOneRating.ratings.map (fun r => r.rating_id)) :=
  ⟨⟨by decide, (add_rating_upsert dbNoRating 1 2 3).1 (by decide)⟩,
   ⟨by decide, ((add_rating_upsert dbOneRating 1 2 4).2 ⟨10, 1, 2, 3, none⟩ (by decide)).1,
    ((add_rating_upsert dbOneRating 1 2 4).2 ⟨10, 1, 2, 3, none⟩ (by decide)).2.1,
    ((add_rating_upsert dbOneRating 1 2 4).2 ⟨10, 1, 2, 3, none⟩ (by decide)).2.2⟩⟩

/-! ### C10 -/

/-- Counterexample to C10 as stated: with PROJECT_ID unset the guard is false,
yet the Browse page still executes the sidebar `get_genres()` query (here it
returns real data) before the check — the page does not short-circuit before
executing any query. -/
theorem is_configured_short_circuit_cex :
    is_configured ⟨"", "someone"⟩ = false
    ∧ (browse_page ⟨"", "someone"⟩ dbBrowse none none none none 20 0).sidebar_genres
        = [⟨5, "Drama"⟩]
    ∧ (browse_page ⟨"", "someone"⟩ dbBrowse none none none none 20 0).body = none := by
  decide

/-- C10 amended: `is_configured` is true exactly when PROJECT_ID and DB_USER
are both non-empty; a false guard short-circuits the guarded page body, which
then executes no browse query; but the sidebar genres query runs before and
regardless of the check, so only the guarded body's query is prevented. -/
theorem is_configured_guards_page_body (cfg : AppConfig) (db : DB) (gid : Option Nat)
    (ymin ymax : Option Int) (rmin : Option ℚ) (limit offset : Nat) :
    (is_configured cfg = true ↔ (cfg.project_id ≠ "" ∧ cfg.db_user ≠ ""))
    ∧ (browse_page cfg db gid ymin ymax rmin limit offset).body
        = (if is_configured cfg
           then some (browse_movies db gid ymin ymax rmin limit offset).2 else none)
    ∧ (is_configured cfg = false →
        (browse_page cfg db gid ymin ymax rmin limit offset).body = none)
    ∧ (browse_page cfg db gid ymin ymax rmin limit offset).sidebar_genres
        = (get_genres db).2 := by
  refine ⟨?_, rfl, ?_, rfl⟩
  · unfold is_configured
    simp [Bool.and_eq_true, bne_iff_ne]
  · intro h
    show (if is_configured cfg
        then some (browse_movies db gid ymin ymax rmin limit offset).2 else none) = none
    rw [h]
    rfl

/-! ### C5 -/

theorem if_zero_id (x : ℚ) : (if x = 0 then (0 : ℚ) else x) = x := by
  by_cases h : x = 0 <;> simp [h]

/-- C5: the rows returned by `search_movies_semantic` are in non-increasing
order of the `similarity` field (the sort is by ascending distance, and
rounding to three decimals is monotone, so the rounded similarities are
non-increasing as well), for every embedding model and distance operator. -/
theorem semantic_results_sorted_by_similarity (emb : String → List ℚ)
    (cosDist : List ℚ → List ℚ → ℚ) (db : DB) (query : String) (limit : Nat) :
    List.Pairwise (fun a b : SemMovie => b.similarity ≤ a.similarity)
      (search_movies_semantic emb cosDist db query limit).2 := by
  show List.Pairwise (fun a b : SemMovie => b.similarity ≤ a.similarity)
    (((List.insertionSort (keyAsc (semKey cosDist (emb query)))
        (db.movies.filter (fun m => m.summary_embedding.isSome))).take limit).map
      (fun m => ⟨m.movie_id, m.title, m.year, m.summary,
        (let s := sqlRound (1 - semKey cosDist (emb query) m) 3; if s = 0 then 0 else s),
        allGenresAgg db m.movie_id⟩))
  rw [List.pairwise_map]
  refine List.Pairwise.imp ?_
    (List.Pairwise.sublist (List.take_sublist limit _)
      (List.sorted_insertionSort (keyAsc (semKey cosDist (emb query)))
        (db.movies.filter (fun m => m.summary_embedding.isSome))))
  intro a b hab
  show (if sqlRound (1 - semKey cosDist (emb query) b) 3 = 0 then (0 : ℚ)
        else sqlRound (1 - semKey cosDist (emb query) b) 3)
    ≤ (if sqlRound (1 - semKey cosDist (emb query) a) 3 = 0 then (0 : ℚ)
        else sqlRound (1 - semKey cosDist (emb query) a) 3)
  rw [if_zero_id, if_zero_id]
  have hd : semKey cosDist (emb query) a ≤ semKey cosDist (emb query) b := hab
  exact sqlRound_mono 3 (by linarith)

/-! ### C9 -/

/-- C9: every movie in `top_movies` carries at least the 50-rating floor, and
`get_analytics_data` returns exactly the five fixed aggregation result sets. -/
theorem analytics_floor_and_five_sets (db : DB) :
    (get_analytics_data db).2.top_movies.all (fun t => decide (50 ≤ t.rating_count)) = true
    ∧ (get_analytics_data db).2 = ⟨topMoviesQuery db, genreDistributionQuery db,
        ratingsByYearQuery db, avgRatingByGenreQuery db, moviesByDecadeQuery db⟩ := by
  refine ⟨?_, rfl⟩
  rw [List.all_eq_true]
  intro t ht
  have ht2 : t ∈ ((List.insertionSort (keyDesc (fun r : Movie × ℚ × Nat => r.2.1))
      ((db.movies.filterMap (fun m =>
        let rs := ratingsOf db m.movie_id
        if rs.length = 0 then none
        else some (m, avgRat (rs.map (fun r => r.rating)), rs.length))).filter
        (fun r => decide (50 ≤ r.2.2)))).take 10).map
      (fun r => (⟨r.1.title, r.1.year, sqlRound r.2.1 2, r.2.2⟩ : TopMovie)) := ht
  rw [List.mem_map] at ht2
  obtain ⟨r, hr, rfl⟩ := ht2
  have hr2 := (List.perm_insertionSort (keyDesc (fun r : Movie × ℚ × Nat => r.2.1))
    _).mem_iff.mp (List.mem_of_mem_take hr)
  exact (List.mem_filter.mp hr2).2

/-! ### C4 -/

theorem mem_aggGenres {nm : String} {names : List String} (h : nm ∈ names) :
    nm ∈ aggGenres names :=
  (List.perm_insertionSort strOrder names.dedup).mem_iff.mpr (List.mem_dedup.mpr h)

theorem hasGenreLink_mem {db : DB} {mid gid : Nat} (h : hasGenreLink db mid gid = true) :
    gid ∈ linkedGenreIds db mid := by
  unfold hasGenreLink at h
  rw [List.any_eq_true] at h
  obtain ⟨p, hp, hpq⟩ := h
  rw [Bool.and_eq_true] at hpq
  have h1 : p.1 = mid := by simpa using hpq.1
  have h2 : p.2 = gid := by simpa using hpq.2
  unfold linkedGenreIds
  rw [List.mem_map]
  exact ⟨p, List.mem_filter.mpr ⟨hp, by simp [h1]⟩, h2⟩

/-- Every shaped browse row comes from a movie row that passed the WHERE
clause, and its genres array is one of the two branch aggregates. -/
theorem browse_movies_mem {db : DB} {gid : Option Nat} {ymin ymax : Option Int}
    {rmin : Option ℚ} {limit offset : Nat} {mv : BrowseMovie}
    (hm : mv ∈ (browse_movies db gid ymin ymax rmin limit offset).2.movies) :
    ∃ r : BRow, mv = shapeBrowseRow r
      ∧ r.movie ∈ db.movies
      ∧ browseWhere db gid ymin ymax r.movie = true
      ∧ (r.genres = allGenresAgg db r.movie.movie_id
         ∨ r.genres = filteredGenresAgg db gid r.movie.movie_id) := by
  have hm2 : mv ∈ (((List.insertionSort browseOrder
      (if ratFilterActive rmin = true
       then browseRowsRating db gid ymin ymax (rmin.getD 0)
       else browseRowsPlain db gid ymin ymax)).drop offset).take limit).map
      shapeBrowseRow := hm
  rw [List.mem_map] at hm2
  obtain ⟨r, hr, rfl⟩ := hm2
  have hr2 := (List.perm_insertionSort browseOrder _).mem_iff.mp
    (List.mem_of_mem_drop (List.mem_of_mem_take hr))
  refine ⟨r, rfl, ?_⟩
  split at hr2
  · unfold browseRowsRating at hr2
    rw [List.mem_map] at hr2
    obtain ⟨m, hmf, rfl⟩ := hr2
    have hmf2 := List.mem_filter.mp hmf
    have hmf3 := List.mem_filter.mp hmf2.1
    exact ⟨hmf3.1, hmf3.2, Or.inl rfl⟩
  · unfold browseRowsPlain at hr2
    rw [List.mem_map] at hr2
    obtain ⟨m, hmf, rfl⟩ := hr2
    have hmf2 := List.mem_filter.mp hmf
    exact ⟨hmf2.1, hmf2.2, Or.inr rfl⟩

/-- C4: with truthy year bounds, every movie returned by `browse_movies` has a
non-NULL year inside the inclusive range; with a truthy genre filter, every
returned movie is linked to that genre and its `genres` array includes every
name the `genres` table records for that id. -/
theorem browse_movies_respects_filters (db : DB) (gid : Option Nat)
    (ymin ymax : Option Int) (rmin : Option ℚ) (limit offset : Nat) (mv : BrowseMovie)
    (hm : mv ∈ (browse_movies db gid ymin ymax rmin limit offset).2.movies) :
    (intFilterActive ymin = true → ∃ y, mv.year = some y ∧ ymin.getD 0 ≤ y)
    ∧ (intFilterActive ymax = true → ∃ y, mv.year = some y ∧ y ≤ ymax.getD 0)
    ∧ (natFilterActive gid = true →
        hasGenreLink db mv.movie_id (gid.getD 0) = true
        ∧ ∀ nm ∈ genreNamesOf db (gid.getD 0), nm ∈ mv.genres) := by
  obtain ⟨r, rfl, hmem, hw, hg⟩ := browse_movies_mem hm
  unfold browseWhere at hw
  simp only [Bool.and_eq_true] at hw
  obtain ⟨⟨hw1, hw2⟩, hw3⟩ := hw
  refine ⟨?_, ?_, ?_⟩
  · intro ha
    rw [ha] at hw2
    simp only [if_true] at hw2
    cases hY : r.movie.year with
    | none => rw [hY] at hw2; exact absurd hw2 (by simp)
    | some y =>
      rw [hY] at hw2
      exact ⟨y, hY, by simpa using hw2⟩
  · intro ha
    rw [ha] at hw3
    simp only [if_true] at hw3
    cases hY : r.movie.year with
    | none => rw [hY] at hw3; exact absurd hw3 (by simp)
    | some y =>
      rw [hY] at hw3
      exact ⟨y, hY, by simpa using hw3⟩
  · intro ha
    rw [ha] at hw1
    simp only [if_true] at hw1
    refine ⟨hw1, ?_⟩
    intro nm hnm
    have hlink : gid.getD 0 ∈ linkedGenreIds db r.movie.movie_id := hasGenreLink_mem hw1
    rcases hg with hA | hB
    · show nm ∈ r.genres
      rw [hA]
      exact mem_aggGenres (List.mem_flatMap.mpr ⟨gid.getD 0, hlink, hnm⟩)
    · show nm ∈ r.genres
      rw [hB]
      unfold filteredGenresAgg
      refine mem_aggGenres (List.mem_flatMap.mpr ⟨gid.getD 0, ?_, hnm⟩)
      unfold filteredLinkIds
      rw [ha]
      simp only [if_true]
      exact List.mem_filter.mpr ⟨hlink, by simp⟩

/-- Witness for C4: on `dbBrowse`, a truthy lower year bound keeps only the
1995 movie, and a truthy genre filter keeps only the Drama-linked movie with
"Drama" in its genres array; both facts are obtained by applying the theorem
at those inputs. -/
theorem browse_movies_respects_filters_witness :
    (intFilterActive (some 1990) = true
      ∧ ∃ y, (⟨1, "A", some 1995, none, 0, 0, ["Drama"]⟩ : BrowseMovie).year = some y
          ∧ (1990 : Int) ≤ y)
    ∧ (natFilterActive (some 5) = true
      ∧ hasGenreLink dbBrowse 1 5 = true
      ∧ ∀ nm ∈ genreNamesOf dbBrowse 5,
          nm ∈ (⟨1, "A", some 1995, none, 0, 0, ["Drama"]⟩ : BrowseMovie).genres) :=
  ⟨⟨by decide, (browse_movies_respects_filters dbBrowse none (some 1990) none none 20 0
      ⟨1, "A", some 1995, none, 0, 0, ["Drama"]⟩ (by decide)).1 (by decide)⟩,
   ⟨by decide, (browse_movies_respects_filters dbBrowse (some 5) none none none 20 0
      ⟨1, "A", some 1995, none, 0, 0, ["Drama"]⟩ (by decide)).2.2 (by decide)⟩⟩

/-! ### C3 -/

/-- A returned movie that did not match on its title: since it was returned,
it matched only in the summary. -/
def summaryOnlyKw (q : String) (mv : KwMovie) : Bool := !(ilikeB mv.title (kwPattern q))

/-- Two movies that only match the query `\` in their summaries (`%`-suffixed
summaries match the pattern `%\%`, whose backslash escapes the closing
wildcard).  Movie 2's title is exactly the query, yet it is ordered after
movie 1 by the title tie-break. -/
def kwCexDB : DB :=
  ⟨[⟨1, "!", none, some "50%", none⟩, ⟨2, "\\", none, some "90%", none⟩],
   [], [], [], [], [], 1, tsZero⟩

/-- Counterexample to C3 as stated: for the query `\`, the movie whose title
exactly equals the query is ranked after a movie that matches only in the
summary, because the backslash in the pattern `%\%` escapes the closing `%`
and the exact title therefore fails the ILIKE CASE key. -/
theorem kw_exact_title_precedes_cex :
    ¬ List.Pairwise (fun a b => ¬(summaryOnlyKw "\\" a = true ∧ b.title = "\\"))
      (search_movies_keyword kwCexDB "\\" 20).2 := by decide

/-- C3 amended: for every query containing no backslash (the LIKE escape
character), every returned movie whose title exactly equals the query precedes
every returned movie that matches only in the summary. -/
theorem kw_exact_title_precedes (db : DB) (q : String) (limit : Nat)
    (hq : bsFree q = true) :
    List.Pairwise (fun a b => ¬(summaryOnlyKw q a = true ∧ b.title = q))
      (search_movies_keyword db q limit).2 := by
  show List.Pairwise (fun a b => ¬(summaryOnlyKw q a = true ∧ b.title = q))
    (((List.insertionSort (kwOrder q) (db.movies.filter (kwWhere q))).take limit).map
      (fun m => ⟨m.movie_id, m.title, m.year, m.summary, allGenresAgg db m.movie_id⟩))
  rw [List.pairwise_map]
  refine List.Pairwise.imp ?_
    (List.Pairwise.sublist (List.take_sublist limit _)
      (List.sorted_insertionSort (kwOrder q) (db.movies.filter (kwWhere q))))
  intro a b hab hcon
  obtain ⟨hA, hB⟩ := hcon
  have hA2 : ilikeB a.title (kwPattern q) = false := by
    have hA3 : (!(ilikeB a.title (kwPattern q))) = true := hA
    simpa using hA3
  have hB2 : ilikeB b.title (kwPattern q) = true := by
    have hB3 : b.title = q := hB
    rw [hB3]
    exact ilike_of_title_eq hq
  have hKa : kwCaseKey q a = 1 := by simp [kwCaseKey, hA2]
  have hKb : kwCaseKey q b = 0 := by simp [kwCaseKey, hB2]
  rcases hab with h | ⟨h, _⟩ <;> omega

/-- A database with an exact-title match (movie 2, "her") and a summary-only
match (movie 1), used to witness the amended C3 and C6. -/
def kwWitnessDB : DB :=
  ⟨[⟨1, "Z", none, some "about her life", none⟩, ⟨2, "her", none, none, none⟩],
   [], [], [], [], [], 1, tsZero⟩

/-- Witness for the amended C3 at the backslash-free query "her". -/
theorem kw_exact_title_precedes_witness :
    bsFree "her" = true
    ∧ List.Pairwise (fun a b => ¬(summaryOnlyKw "her" a = true ∧ b.title = "her"))
        (search_movies_keyword kwWitnessDB "her" 20).2 :=
  ⟨by decide, kw_exact_title_precedes kwWitnessDB "her" 20 (by decide)⟩

/-! ### C6 -/

/-- The claim's containment property: the query occurs case-insensitively
inside the returned movie's title or summary. -/
def kwContains (q : String) (mv : KwMovie) : Bool :=
  segInside (lowerData q) (lowerData mv.title) ||
    (match mv.summary with
     | some s => segInside (lowerData q) (lowerData s)
     | none => false)

/-- One movie whose title matches the pattern `%_%` through the `_` wildcard
without containing the queried underscore. -/
def kwCex2DB : DB := ⟨[⟨1, "ab", none, some "x", none⟩], [], [], [], [], [], 1, tsZero⟩

/-- Counterexample to C6 as stated: for the query `_`, a movie is returned
(every non-empty title matches `%_%`) although neither its title nor its
summary contains the underscore as a substring. -/
theorem kw_results_contain_query_cex :
    ¬ (∀ mv ∈ (search_movies_keyword kwCex2DB "_" 20).2, kwContains "_" mv = true) := by
  decide

/-- C6 amended: for every query free of the LIKE metacharacters `%`, `_` and
`\`, every movie returned by `search_movies_keyword` contains the query
case-insensitively in its title or summary. -/
theorem kw_results_contain_query (db : DB) (q : String) (limit : Nat) (mv : KwMovie)
    (hq : likePlain q = true) (hm : mv ∈ (search_movies_keyword db q limit).2) :
    kwContains q mv = true := by
  have hm2 : mv ∈ ((List.insertionSort (kwOrder q) (db.movies.filter (kwWhere q))).take
      limit).map
      (fun m => (⟨m.movie_id, m.title, m.year, m.summary, allGenresAgg db m.movie_id⟩ :
        KwMovie)) := hm
  rw [List.mem_map] at hm2
  obtain ⟨m, hmem, rfl⟩ := hm2
  have h1 : m ∈ db.movies.filter (kwWhere q) :=
    (List.perm_insertionSort (kwOrder q) (db.movies.filter (kwWhere q))).mem_iff.mp
      (List.mem_of_mem_take hmem)
  have h2 : kwWhere q m = true := (List.mem_filter.mp h1).2
  unfold kwWhere at h2
  rcases Bool.or_eq_true_iff.mp h2 with h3 | h3
  · have hc := ilike_plain_contains hq h3
    show (segInside (lowerData q) (lowerData m.title) ||
      (match m.summary with
       | some s => segInside (lowerData q) (lowerData s)
       | none => false)) = true
    rw [hc, Bool.true_or]
  · cases hs : m.summary with
    | none => rw [hs] at h3; exact absurd h3 (by simp)
    | some s =>
      rw [hs] at h3
      have hc := ilike_plain_contains hq (show ilikeB s (kwPattern q) = true from h3)
      show (segInside (lowerData q) (lowerData m.title) ||
        segInside (lowerData q) (lowerData s)) = true
      rw [hc, Bool.or_true]

/-- Witness for the amended C6: the metacharacter-free query "her" at the
exact-title row of `kwWitnessDB`. -/
theorem kw_results_contain_query_witness :
    likePlain "her" = true ∧ kwContains "her" ⟨2, "her", none, none, []⟩ = true :=
  ⟨by decide, kw_results_contain_query kwWitnessDB "her" 20 ⟨2, "her", none, none, []⟩
    (by decide) (by decide)⟩

/-! ### C8 -/

/-- C8: the seven read paths return the database unchanged; `add_rating`
touches only the `ratings` table (movies, genres, links, users and the join
table are unchanged), and it never deletes: every stored rating row survives
with its id and composite key. -/
theorem single_write_path_frame (db : DB) (emb : String → List ℚ)
    (cosDist : List ℚ → List ℚ → ℚ) (q : String) (limit offset : Nat)
    (gid : Option Nat) (ymin ymax : Option Int) (rmin : Option ℚ)
    (mid u m : Nat) (v : ℚ) :
    ((get_stats db).1 = db
      ∧ (search_movies_semantic emb cosDist db q limit).1 = db
      ∧ (search_movies_keyword db q limit).1 = db
      ∧ (get_genres db).1 = db
      ∧ (browse_movies db gid ymin ymax rmin limit offset).1 = db
      ∧ (get_movie_details db mid).1 = db
      ∧ (get_analytics_data db).1 = db)
    ∧ ((add_rating db u m v).1.movies = db.movies
      ∧ (add_rating db u m v).1.genres = db.genres
      ∧ (add_rating db u m v).1.movie_genres = db.movie_genres
      ∧ (add_rating db u m v).1.users = db.users
      ∧ (add_rating db u m v).1.links = db.links)
    ∧ (∀ r0 ∈ db.ratings, ∃ r1 ∈ (add_rating db u m v).1.ratings,
        r1.rating_id = r0.rating_id ∧ r1.user_id = r0.user_id ∧ r1.movie_id = r0.movie_id) := by
  refine ⟨⟨rfl, rfl, rfl, rfl, rfl, ?_, rfl⟩, ?_, ?_⟩
  · unfold get_movie_details
    cases (db.movies.filter (fun m2 => m2.movie_id == mid)).head? <;> rfl
  · unfold add_rating
    cases (db.ratings.filter (ratingKeyMatch u m)).head? <;> exact ⟨rfl, rfl, rfl, rfl, rfl⟩
  · intro r0 hr0
    unfold add_rating
    cases (db.ratings.filter (ratingKeyMatch u m)).head? with
    | some rr =>
      refine ⟨if ratingKeyMatch u m r0
          then { r0 with rating := v, rated_at := some db.now } else r0,
        List.mem_map_of_mem _ hr0, ?_⟩
      by_cases hp : ratingKeyMatch u m r0 <;> simp [hp]
    | none => exact ⟨r0, List.mem_append_left _ hr0, rfl, rfl, rfl⟩

/-- A vacuous embedding model and distance operator for the witness. -/
def embZero : String → List ℚ := fun _ => []

/-- A vacuous distance operator for the witness. -/
def distZero : List ℚ → List ℚ → ℚ := fun _ _ => 0

/-- Witness for C8: on `dbOneRating`, the stored rating row survives an
update with its id and composite key. -/
theorem single_write_path_frame_witness :
    ∃ r1 ∈ (add_rating dbOneRating 1 2 4).1.ratings,
      r1.rating_id = 10 ∧ r1.user_id = 1 ∧ r1.movie_id = 2 :=
  (single_write_path_frame dbOneRating embZero distZero "" 0 0 none none none none 0 1 2 4).2.2
    ⟨10, 1, 2, 3, none⟩ (by decide)

/-- Witness for the amended C10: an empty PROJECT_ID fails the guard and the
guarded body of the Browse page short-circuits to no result. -/
theorem is_configured_guards_page_body_witness :
    is_configured ⟨"", "someone"⟩ = false
    ∧ (browse_page ⟨"", "someone"⟩ dbNoRating none none none none 0 0).body = none :=
  ⟨by decide,
   (is_configured_guards_page_body ⟨"", "someone"⟩ dbNoRating none none none none 0 0).2.2.1
     (by decide)⟩
